import Mathlib

/-!
Verification of the network-checker diagnostic engine
(`src/Network-Checker-gui.pyw`, `src/unnamed/part_000`).

The Python source is shallowly embedded: each resolver becomes a pure Lean
function over an explicit model of its OS inputs (the text produced by the
routing command, the interface table reported by `psutil`, the result of one
`subprocess` call, the result of one `socket.gethostbyname` call).  The
string primitives used by the source (`str.split()`, `str.split('\n')`,
`str.splitlines()`, `in`, `startswith`, `strip()`, `lower()`) are modelled
by structural recursion over the character list of the string, matching
CPython semantics for the character set these outputs use (note: Python's
whitespace set also has unicode spaces, and `splitlines` also splits on
`\r` and unicode line boundaries; the command outputs parsed here are
`text=True` universal-newline captures, so `\n` is the only line break).
-/

/-- Whitespace characters recognised by Python's `str.split()` / `str.strip()`
(ASCII part: space, tab, newline, carriage return, vertical tab, form feed). -/
def pyIsSpace (c : Char) : Bool :=
  c = ' ' || c = '\t' || c = '\n' || c = '\r' || c = '\x0b' || c = '\x0c'

/-- Whether the first list is a prefix of the second (used for Python's
`startswith` and as the step of substring search). -/
def chPrefix : List Char → List Char → Bool
  | [], _ => true
  | _ :: _, [] => false
  | a :: as, b :: bs => if a = b then chPrefix as bs else false

/-- Substring occurrence, `needle` occurs somewhere in `haystack`:
Python's `needle in haystack`. -/
def containsSub (needle : List Char) : List Char → Bool
  | [] => needle.isEmpty
  | c :: rest => chPrefix needle (c :: rest) || containsSub needle rest

/-- Python `sub in s`. -/
def pyContains (s sub : String) : Bool := containsSub sub.data s.data

/-- Python `s.startswith(pre)`. -/
def pyStartsWith (s pre : String) : Bool := chPrefix pre.data s.data

/-- Splitting on one separator character, keeping empty fields:
Python `s.split(sep)` for a single-character separator. -/
def splitOnCharAux (sep : Char) : List Char → List Char → List (List Char)
  | [], acc => [acc.reverse]
  | c :: cs, acc =>
    if c = sep then acc.reverse :: splitOnCharAux sep cs []
    else splitOnCharAux sep cs (c :: acc)

/-- Python `s.split(sep)` for a one-character separator string. -/
def pySplitChar (sep : Char) (s : String) : List String :=
  (splitOnCharAux sep s.data []).map String.mk

/-- Python `s.splitlines()` for `\n`-terminated text: like `split('\n')`
except that a trailing newline yields no final empty line and the empty
string yields no lines at all. -/
def pySplitlines (s : String) : List String :=
  if s.data = [] then []
  else if s.data.getLast? = some '\n' then
    ((splitOnCharAux '\n' s.data []).dropLast).map String.mk
  else (splitOnCharAux '\n' s.data []).map String.mk

/-- Worker for Python's no-argument `str.split()`: split on runs of
whitespace, discarding empty fields.  `acc` holds the (reversed) word
currently being read. -/
def pyWordsAux : List Char → List Char → List (List Char)
  | [], acc => if acc.isEmpty then [] else [acc.reverse]
  | c :: cs, acc =>
    if pyIsSpace c then
      if acc.isEmpty then pyWordsAux cs []
      else acc.reverse :: pyWordsAux cs []
    else pyWordsAux cs (c :: acc)

/-- Python `s.split()` (no argument): whitespace-delimited tokens. -/
def pySplitWs (s : String) : List String :=
  (pyWordsAux s.data []).map String.mk

/-- Python `s.strip()`. -/
def pyStrip (s : String) : String :=
  String.mk (((s.data.dropWhile pyIsSpace).reverse.dropWhile pyIsSpace).reverse)

/-- Python `s.lower()` (ASCII). -/
def pyLower (s : String) : String := String.mk (s.data.map Char.toLower)

example : pySplitWs "   Default Gateway . . . . . . . : 192.168.1.1" =
    ["Default", "Gateway", ".", ".", ".", ".", ".", ".", ".", ":", "192.168.1.1"] := by decide

example : pySplitlines "a\nb\n" = ["a", "b"] := by decide

example : pyContains "   Default Gateway . . : x" "Default Gateway" = true := by decide

example : pyStrip "  Reply from 1.2.3.4  " = "Reply from 1.2.3.4" := by decide

example : pyLower "Request Timed Out." = "request timed out." := by decide

/-!
Embedding of the diagnostic functions of `src/Network-Checker-gui.pyw`
(second part of the file, the functions `get_default_gateway`,
`get_ip_and_interface`, `get_logon_server`, `ping`, `dns_query`,
`check_connection`) and of `NetworkCheckerGUI._parse_ping_output`.

`platform.system().lower() == 'windows'` is modelled by a Boolean
parameter `isWindows`; each `subprocess` / `psutil` / `socket` call is
modelled by an explicit value describing what the OS returned.
-/

/-- Scanner of `get_default_gateway` on Windows: for each line, if it
contains `'Default Gateway'` and splits into at least 4 tokens, the source
returns `parts[-1]`; a containing line with fewer tokens falls through to
the next loop iteration. -/
def gwScanWindows : List String → Option String
  | [] => none
  | line :: rest =>
    if pyContains line "Default Gateway" then
      if 4 ≤ (pySplitWs line).length then (pySplitWs line).getLast?
      else gwScanWindows rest
    else gwScanWindows rest

/-- Scanner of `get_default_gateway` on POSIX: for each line, if it starts
with `'default via'` and splits into at least 3 tokens, the source returns
`parts[2]`; otherwise the loop continues. -/
def gwScanPosix : List String → Option String
  | [] => none
  | line :: rest =>
    if pyStartsWith line "default via" then
      if 3 ≤ (pySplitWs line).length then (pySplitWs line)[2]?
      else gwScanPosix rest
    else gwScanPosix rest

/-- `get_default_gateway` from the source.  `commandOutput` is the result of
`subprocess.check_output('ipconfig' / 'ip route', shell=True, text=True)`:
`none` models `CalledProcessError` (the source then returns `None`). -/
def get_default_gateway (isWindows : Bool) (commandOutput : Option String) : Option String :=
  match commandOutput with
  | none => none
  | some output =>
    if isWindows then gwScanWindows (pySplitlines output)
    else gwScanPosix (pySplitlines output)

/-- Gateway parsing as the specification's words describe it: scan for the
platform pattern, and use ONLY the first matching line (Windows: first line
containing the label `'Default Gateway'`; POSIX: first line beginning with
`'default via'`), taking its last / 3rd token provided it has at least
4 / 3 tokens; absent otherwise.  Written from the spec to compare against
`get_default_gateway`. -/
def spec_default_gateway (isWindows : Bool) (commandOutput : Option String) : Option String :=
  match commandOutput with
  | none => none
  | some output =>
    if isWindows then
      match (pySplitlines output).find? (fun l => pyContains l "Default Gateway") with
      | some l => if 4 ≤ (pySplitWs l).length then (pySplitWs l).getLast? else none
      | none => none
    else
      match (pySplitlines output).find? (fun l => pyStartsWith l "default via") with
      | some l => if 3 ≤ (pySplitWs l).length then (pySplitWs l)[2]? else none
      | none => none

/-- Address family tag of a `psutil` address record (`socket.AF_INET`,
`AF_INET6`, `AF_LINK`, ...). -/
inductive AddrFamily where
  | inet
  | inet6
  | link
deriving DecidableEq

/-- One address record of `psutil.net_if_addrs()`. -/
structure IfAddr where
  family : AddrFamily
  address : String

/-- Inner loop of `get_ip_and_interface` over the addresses of one
interface: the first `AF_INET` address not starting with `"127."` is
returned as `(addr.address, interface)`. -/
def scanAddrList (interfaceName : String) : List IfAddr → Option (String × String)
  | [] => none
  | a :: rest =>
    if a.family = AddrFamily.inet ∧ pyStartsWith a.address "127." = false then
      some (a.address, interfaceName)
    else scanAddrList interfaceName rest

/-- Outer loop of `get_ip_and_interface` over `psutil.net_if_addrs().items()`
in reported order. -/
def scanIfaceTable : List (String × List IfAddr) → Option (String × String)
  | [] => none
  | (interfaceName, addrs) :: rest =>
    match scanAddrList interfaceName addrs with
    | some p => some p
    | none => scanIfaceTable rest

/-- `get_ip_and_interface` from the source.  `table` is the interface table
reported by `psutil.net_if_addrs()`; `none` models the enumeration itself
raising (the source's `except Exception` branch). -/
def get_ip_and_interface (table : Option (List (String × List IfAddr))) : String × String :=
  match table with
  | none => ("N/A", "N/A")
  | some t =>
    match scanIfaceTable t with
    | some p => p
    | none => ("N/A", "N/A")

/-- `get_logon_server` from the source.  `commandOutput` is the result of
`subprocess.check_output('echo %logonserver%', shell=True, text=True)`;
`none` models `CalledProcessError`. -/
def get_logon_server (isWindows : Bool) (commandOutput : Option String) : String :=
  if isWindows then
    match commandOutput with
    | some output => pyStrip output
    | none => "N/A"
  else "N/A"

/-- Modelled from the spec: the report-level logon-server resolution of
`NetworkChecker` lives in `network_operations.py`, which is not under
`src/`.  Per the spec's data model the field is `"N/A"` on non-Windows or
on command failure, `"Not available"` if the logon-server value is unset,
and the trimmed shell output otherwise. -/
def networkChecker_logon_server (isWindows unset : Bool) (commandOutput : Option String) : String :=
  if isWindows then
    match commandOutput with
    | some output => if unset then "Not available" else pyStrip output
    | none => "N/A"
  else "N/A"

/-- Result of the `subprocess.check_output(['ping', param, '1', host], ...)`
call inside `ping`: the command ran and exited zero with some combined
stdout+stderr text, or it ran and exited non-zero (Python raises
`subprocess.CalledProcessError`, which carries the captured text), or the
process could not be launched at all (Python raises `FileNotFoundError` /
`PermissionError`, which `ping` does not catch). -/
inductive SubprocResult where
  | ok (output : String)
  | calledProcessError (output : String)
  | launchError

/-- `ping` from the source.  `Except.error ()` models an exception escaping
the function (only `CalledProcessError` is caught by the source). -/
def ping (res : SubprocResult) : Except Unit String :=
  match res with
  | SubprocResult.ok output => Except.ok output
  | SubprocResult.calledProcessError _ => Except.ok "Ping failed"
  | SubprocResult.launchError => Except.error ()

/-- `dns_query` from the source.  `resolveResult` is the result of the
single `socket.gethostbyname(hostname)` call: `some ip` on success, `none`
when it raises `socket.error` (which `gaierror`, the resolver-failure
exception, is a subclass of — so every resolution error is caught). -/
def dns_query (resolveResult : Option String) : String :=
  match resolveResult with
  | some ip => ip
  | none => "DNS resolution failed"

/-- Python truthiness of the `gateway` value (`None` and `""` are falsy). -/
def strOptTruthy : Option String → Bool
  | none => false
  | some s => !s.data.isEmpty

/-- Windows branch of the line loop in `_parse_ping_output`: the first line
containing `'Reply from'` or `'Request timed out'`, or containing
`'Packets:'`, is returned stripped. -/
def pingOutputScanWindows : List String → Option String
  | [] => none
  | line :: rest =>
    if pyContains line "Reply from" || pyContains line "Request timed out" then
      some (pyStrip line)
    else if pyContains line "Packets:" then some (pyStrip line)
    else pingOutputScanWindows rest

/-- POSIX branch of the line loop in `_parse_ping_output`: the first line
whose lowercasing contains `'bytes from'` is returned stripped. -/
def pingOutputScanPosix : List String → Option String
  | [] => none
  | line :: rest =>
    if pyContains (pyLower line) "bytes from" then some (pyStrip line)
    else pingOutputScanPosix rest

/-- `NetworkCheckerGUI._parse_ping_output` from the source: text containing
`"Ping failed"` or (case-insensitively) `"timeout"` is returned verbatim;
otherwise the platform scan over `split('\n')` lines returns the first
marker line, and `"Success"` if there is none. -/
def _parse_ping_output (isWindows : Bool) (ping_output : String) : String :=
  if pyContains ping_output "Ping failed" || pyContains (pyLower ping_output) "timeout" then
    ping_output
  else
    match (if isWindows then pingOutputScanWindows (pySplitChar '\n' ping_output)
           else pingOutputScanPosix (pySplitChar '\n' ping_output)) with
    | some line => line
    | none => "Success"

/-- Gateway-status classification from `NetworkCheckerGUI._update_results`:
`"success" if gateway and "Reply from" in gateway_ping else "failure" if
gateway else "unknown"`. -/
def gw_status (gateway : Option String) (gatewayPing : String) : String :=
  if strOptTruthy gateway && pyContains gatewayPing "Reply from" then "success"
  else if strOptTruthy gateway then "failure"
  else "unknown"

example : get_default_gateway true (some "   Default Gateway . . . . . . . : 192.168.1.1") =
    some "192.168.1.1" := by decide

example : get_default_gateway false (some "default via 10.0.0.1 dev eth0") =
    some "10.0.0.1" := by decide

example : get_default_gateway true (some "Default Gateway:\nDefault Gateway . : 1.2.3.4") =
    some "1.2.3.4" := by decide

example : spec_default_gateway true (some "Default Gateway:\nDefault Gateway . : 1.2.3.4") =
    none := by decide

example : get_default_gateway true (some "   Default Gateway . . . . . . . :") =
    some ":" := by decide

example : _parse_ping_output true "Reply from 192.168.1.1: bytes=32" =
    "Reply from 192.168.1.1: bytes=32" := by decide

example : _parse_ping_output true "Request timed out." = "Request timed out." := by decide

example : _parse_ping_output true "" = "Success" := by decide

example : _parse_ping_output false "" = "Success" := by decide

/-- The five GUI label strings set by `check_connection`, plus `pinged`, an
instrumentation field recording the hosts passed to `ping`, in call order
(needed to state which probes an invocation attempts). -/
structure Report where
  ip_result : String
  interface_result : String
  logon_server_result : String
  gw_result : String
  dns_result : String
  pinged : List String

/-- Assembles the labels exactly as the `f`-strings of `check_connection`
do (`f"IP: {ip_address}"`, `f"Interface: {interface}"`,
`f"Logon Server: {logon_server}"`, `f"DNS google.com: {dns_ip}"`). -/
def mkReport (ipInterface : String × String) (logonServer gwField dnsField : String)
    (pinged : List String) : Report :=
  { ip_result := "IP: " ++ ipInterface.1
  , interface_result := "Interface: " ++ ipInterface.2
  , logon_server_result := "Logon Server: " ++ logonServer
  , gw_result := gwField
  , dns_result := "DNS google.com: " ++ dnsField
  , pinged := pinged }

/-- The live OS environment one `check_connection` invocation observes:
the platform, the routing-command output, the interface table, the
logon-server command output, the subprocess result of `ping <host>` for
each host, and the resolver result for each hostname. -/
structure Env where
  windows : Bool
  routeCmd : Option String
  ifaces : Option (List (String × List IfAddr))
  logonCmd : Option String
  pings : String → SubprocResult
  dns : String → Option String

/-- `check_connection` from the source: gateway discovery, interface/IP,
logon server, then — only when `gateway` is truthy — `ping(gateway)`, else
the literal label `"Gateway not found"`, then `dns_query("google.com")`.
`Except.error ()` models the uncaught exception of a ping launch failure
escaping `check_connection` (the source then produces no complete result;
the labels it set before the raise are out of the engine's contract). -/
def check_connection (env : Env) : Except Unit Report :=
  let gateway := get_default_gateway env.windows env.routeCmd
  let ipInterface := get_ip_and_interface env.ifaces
  let logonServer := get_logon_server env.windows env.logonCmd
  match gateway with
  | some g =>
    if g = "" then
      Except.ok (mkReport ipInterface logonServer "Gateway not found"
        (dns_query (env.dns "google.com")) [])
    else
      match ping (env.pings g) with
      | Except.ok pingResult =>
        Except.ok (mkReport ipInterface logonServer
          ("Gateway (" ++ g ++ "):\n" ++ pingResult)
          (dns_query (env.dns "google.com")) [g])
      | Except.error e => Except.error e
  | none =>
    Except.ok (mkReport ipInterface logonServer "Gateway not found"
      (dns_query (env.dns "google.com")) [])

/-- The claim-side flattening of the interface table: all (interface,
address-record) pairs in OS-reported enumeration order. -/
def addrPairsInOrder : List (String × List IfAddr) → List (String × IfAddr)
  | [] => []
  | (interfaceName, addrs) :: rest =>
    addrs.map (fun a => (interfaceName, a)) ++ addrPairsInOrder rest

/-- The claim-side qualification predicate of the Interface Enumerator:
IPv4 family and not in the textual `"127."` loopback prefix (for dotted-quad
strings this is exactly the 127.0.0.0/8 range). -/
def qualifiesIPv4 (p : String × IfAddr) : Bool :=
  decide (p.2.family = AddrFamily.inet) && !pyStartsWith p.2.address "127."

/-- An environment whose routing table has no default route: gateway
discovery legitimately returns absent. -/
def envNoGateway : Env :=
  { windows := false
  , routeCmd := some "192.168.0.0/24 dev eth0 proto kernel scope link"
  , ifaces := some []
  , logonCmd := some ""
  , pings := fun _ => SubprocResult.ok ""
  , dns := fun _ => some "142.250.64.78" }

/-- An environment where gateway discovery succeeds and every probe and
lookup succeeds. -/
def envWithGateway : Env :=
  { windows := false
  , routeCmd := some "default via 10.0.0.1 dev eth0"
  , ifaces := some [("eth0", [{ family := AddrFamily.inet, address := "192.168.1.5" }])]
  , logonCmd := some ""
  , pings := fun _ => SubprocResult.ok "64 bytes from 10.0.0.1: icmp_seq=1 ttl=64"
  , dns := fun _ => some "142.250.64.78" }

/-- The report `check_connection` produces in `envWithGateway`. -/
def repWithGateway : Report :=
  mkReport ("192.168.1.5", "eth0") "N/A"
    ("Gateway (10.0.0.1):\n64 bytes from 10.0.0.1: icmp_seq=1 ttl=64")
    "142.250.64.78" ["10.0.0.1"]

/-- A Windows environment where every OS query fails. -/
def envAllFailing : Env :=
  { windows := true
  , routeCmd := none
  , ifaces := none
  , logonCmd := none
  , pings := fun _ => SubprocResult.calledProcessError ""
  , dns := fun _ => none }

/-- The report `check_connection` produces in `envAllFailing`. -/
def repAllFailing : Report :=
  mkReport ("N/A", "N/A") "N/A" "Gateway not found" "DNS resolution failed" []

example : check_connection envWithGateway = Except.ok repWithGateway := rfl

example : check_connection envAllFailing = Except.ok repAllFailing := rfl

example : check_connection envNoGateway =
    Except.ok (mkReport ("N/A", "N/A") "N/A" "Gateway not found" "142.250.64.78" []) := rfl

/-!
Helper lemmas shared by the claim theorems.
-/

/-- Every token `str.split()` produces is a nonempty word. -/
lemma pyWordsAux_mem_ne_nil : ∀ (cs acc w : List Char), w ∈ pyWordsAux cs acc → w ≠ [] := by
  intro cs
  induction cs with
  | nil =>
    intro acc w hw
    cases acc with
    | nil => simp [pyWordsAux] at hw
    | cons a as =>
      simp [pyWordsAux] at hw
      subst hw
      simp
  | cons c cs ih =>
    intro acc w hw
    simp only [pyWordsAux] at hw
    by_cases hs : pyIsSpace c = true
    · cases acc with
      | nil =>
        rw [if_pos hs] at hw
        simp only [List.isEmpty_nil, if_pos] at hw
        exact ih [] w hw
      | cons a as =>
        rw [if_pos hs] at hw
        simp only [List.isEmpty_cons] at hw
        rw [if_neg (by simp)] at hw
        rcases List.mem_cons.mp hw with hw | hw
        · subst hw; simp
        · exact ih [] w hw
    · rw [if_neg hs] at hw
      exact ih (c :: acc) w hw

/-- Every token of `pySplitWs` is a nonempty string. -/
lemma pySplitWs_mem_ne_empty (s g : String) (hg : g ∈ pySplitWs s) : g ≠ "" := by
  simp only [pySplitWs, List.mem_map] at hg
  rcases hg with ⟨w, hw, rfl⟩
  intro h
  exact pyWordsAux_mem_ne_nil _ _ _ hw (congrArg String.data h)

/-- The Windows gateway scanner only ever returns a token of some line,
hence never the empty string. -/
lemma gwScanWindows_ne_empty : ∀ (ls : List String) (g : String),
    gwScanWindows ls = some g → g ≠ "" := by
  intro ls
  induction ls with
  | nil => intro g h; simp [gwScanWindows] at h
  | cons line rest ih =>
    intro g h
    simp only [gwScanWindows] at h
    by_cases hc : pyContains line "Default Gateway" = true
    · rw [if_pos hc] at h
      by_cases hl : 4 ≤ (pySplitWs line).length
      · rw [if_pos hl] at h
        exact pySplitWs_mem_ne_empty line g (List.mem_of_getLast?_eq_some h)
      · rw [if_neg hl] at h
        exact ih g h
    · rw [if_neg hc] at h
      exact ih g h

/-- The POSIX gateway scanner only ever returns a token of some line,
hence never the empty string. -/
lemma gwScanPosix_ne_empty : ∀ (ls : List String) (g : String),
    gwScanPosix ls = some g → g ≠ "" := by
  intro ls
  induction ls with
  | nil => intro g h; simp [gwScanPosix] at h
  | cons line rest ih =>
    intro g h
    simp only [gwScanPosix] at h
    by_cases hc : pyStartsWith line "default via" = true
    · rw [if_pos hc] at h
      by_cases hl : 3 ≤ (pySplitWs line).length
      · rw [if_pos hl] at h
        exact pySplitWs_mem_ne_empty line g (List.getElem?_mem h)
      · rw [if_neg hl] at h
        exact ih g h
    · rw [if_neg hc] at h
      exact ih g h

/-- `get_default_gateway` never returns the empty string, so Python's
truthiness test `if gateway:` in `check_connection` is just a `None` test
on its result. -/
lemma get_default_gateway_ne_empty : ∀ (w : Bool) (o : Option String) (g : String),
    get_default_gateway w o = some g → g ≠ "" := by
  intro w o g h
  cases o with
  | none => simp [get_default_gateway] at h
  | some out =>
    cases w with
    | true => exact gwScanWindows_ne_empty _ _ (by simpa [get_default_gateway] using h)
    | false => exact gwScanPosix_ne_empty _ _ (by simpa [get_default_gateway] using h)

/-- The Windows gateway scan equals: find the first line that both contains
the label and has at least 4 tokens, and take its last token. -/
lemma gwScanWindows_eq_find : ∀ ls : List String,
    gwScanWindows ls =
      (ls.find? (fun l => pyContains l "Default Gateway" &&
        decide (4 ≤ (pySplitWs l).length))).bind (fun l => (pySplitWs l).getLast?) := by
  intro ls
  induction ls with
  | nil => rfl
  | cons line rest ih =>
    simp only [gwScanWindows]
    by_cases hc : pyContains line "Default Gateway" = true
    · by_cases hl : 4 ≤ (pySplitWs line).length
      · rw [if_pos hc, if_pos hl, List.find?_cons_of_pos _ (by simp [hc, hl])]
        rfl
      · rw [if_pos hc, if_neg hl, List.find?_cons_of_neg _ (by simp [hc, hl]), ih]
    · rw [if_neg hc, List.find?_cons_of_neg _ (by simp [hc]), ih]

/-- The POSIX gateway scan equals: find the first line that both begins with
`'default via'` and has at least 3 tokens, and take its 3rd token. -/
lemma gwScanPosix_eq_find : ∀ ls : List String,
    gwScanPosix ls =
      (ls.find? (fun l => pyStartsWith l "default via" &&
        decide (3 ≤ (pySplitWs l).length))).bind (fun l => (pySplitWs l)[2]?) := by
  intro ls
  induction ls with
  | nil => rfl
  | cons line rest ih =>
    simp only [gwScanPosix]
    by_cases hc : pyStartsWith line "default via" = true
    · by_cases hl : 3 ≤ (pySplitWs line).length
      · rw [if_pos hc, if_pos hl, List.find?_cons_of_pos _ (by simp [hc, hl])]
        rfl
      · rw [if_pos hc, if_neg hl, List.find?_cons_of_neg _ (by simp [hc, hl]), ih]
    · rw [if_neg hc, List.find?_cons_of_neg _ (by simp [hc]), ih]

/-- When the first line containing the Windows label has at least 4 tokens,
the Windows scan returns that line's last token. -/
lemma gwScanWindows_first : ∀ (ls : List String) (L : String),
    ls.find? (fun l => pyContains l "Default Gateway") = some L →
    4 ≤ (pySplitWs L).length →
    gwScanWindows ls = (pySplitWs L).getLast? := by
  intro ls
  induction ls with
  | nil => intro L h _; simp at h
  | cons line rest ih =>
    intro L h h4
    by_cases hc : pyContains line "Default Gateway" = true
    · rw [List.find?_cons_of_pos _ (by exact hc)] at h
      injection h with h
      subst h
      simp only [gwScanWindows]
      rw [if_pos hc, if_pos h4]
    · rw [List.find?_cons_of_neg _ (by simp [hc])] at h
      simp only [gwScanWindows]
      rw [if_neg hc]
      exact ih L h h4

/-- When no line carries any of the Windows markers, the Windows ping-output
scan finds nothing. -/
lemma pingOutputScanWindows_none : ∀ ls : List String,
    (∀ l ∈ ls, pyContains l "Reply from" = false ∧ pyContains l "Request timed out" = false ∧
      pyContains l "Packets:" = false) →
    pingOutputScanWindows ls = none := by
  intro ls
  induction ls with
  | nil => intro _; rfl
  | cons line rest ih =>
    intro h
    obtain ⟨h1, h2, h3⟩ := h line (List.mem_cons_self line rest)
    have hrest : pingOutputScanWindows rest = none :=
      ih (fun l hl => h l (List.mem_cons_of_mem _ hl))
    simp only [pingOutputScanWindows]
    rw [if_neg (by simp [h1, h2]), if_neg (by simp [h3])]
    exact hrest

/-- When no line's lowercasing contains `'bytes from'`, the POSIX ping-output
scan finds nothing. -/
lemma pingOutputScanPosix_none : ∀ ls : List String,
    (∀ l ∈ ls, pyContains (pyLower l) "bytes from" = false) →
    pingOutputScanPosix ls = none := by
  intro ls
  induction ls with
  | nil => intro _; rfl
  | cons line rest ih =>
    intro h
    have h1 := h line (List.mem_cons_self line rest)
    have hrest : pingOutputScanPosix rest = none :=
      ih (fun l hl => h l (List.mem_cons_of_mem _ hl))
    simp only [pingOutputScanPosix]
    rw [if_neg (by simp [h1])]
    exact hrest

/-- The inner address loop equals a first-match search over the pairs of one
interface. -/
lemma scanAddrList_eq_find : ∀ (i : String) (as : List IfAddr),
    scanAddrList i as =
      ((as.map (fun a => (i, a))).find? qualifiesIPv4).map (fun p => (p.2.address, p.1)) := by
  intro i as
  induction as with
  | nil => rfl
  | cons a rest ih =>
    simp only [List.map_cons]
    by_cases hq : qualifiesIPv4 (i, a) = true
    · rw [List.find?_cons_of_pos _ hq]
      have hcond : a.family = AddrFamily.inet ∧ pyStartsWith a.address "127." = false := by
        simpa [qualifiesIPv4, Bool.not_eq_true'] using hq
      simp only [scanAddrList]
      rw [if_pos hcond]
      rfl
    · rw [List.find?_cons_of_neg _ (by simp [hq])]
      have hcond : ¬(a.family = AddrFamily.inet ∧ pyStartsWith a.address "127." = false) := by
        intro hc
        exact hq (by simp [qualifiesIPv4, hc.1, hc.2, Bool.not_eq_true'])
      simp only [scanAddrList]
      rw [if_neg hcond]
      exact ih

/-- The nested interface/address loops equal the first-match search over the
flattened pair list in enumeration order. -/
lemma scanIfaceTable_eq_find : ∀ t : List (String × List IfAddr),
    scanIfaceTable t =
      ((addrPairsInOrder t).find? qualifiesIPv4).map (fun p => (p.2.address, p.1)) := by
  intro t
  induction t with
  | nil => rfl
  | cons e rest ih =>
    obtain ⟨i, as⟩ := e
    simp only [scanIfaceTable, addrPairsInOrder]
    rw [scanAddrList_eq_find, List.find?_append]
    cases hf : (as.map (fun a => (i, a))).find? qualifiesIPv4 with
    | some p => simp [hf, Option.or]
    | none => simp [hf, Option.or, ih]

/-!
The claims.
-/

/-- Routing output whose FIRST line containing `'Default Gateway'` has only
2 whitespace tokens, while a later containing line has 5. -/
def gwFirstLineShortOutput : String := "Default Gateway:\nDefault Gateway . : 1.2.3.4"

/-- C1 counterexample: the claim says only the first matching line is used
(matching = containing the `'Default Gateway'` label on Windows), so on
`gwFirstLineShortOutput` — whose first matching line has fewer than 4
tokens — the gateway would be absent; the code instead skips that line and
extracts `"1.2.3.4"` from the SECOND matching line.  `spec_default_gateway`
is the claim's reading, `get_default_gateway` the code's. -/
theorem claim_C1_counterexample :
    get_default_gateway true (some gwFirstLineShortOutput) = some "1.2.3.4" ∧
    spec_default_gateway true (some gwFirstLineShortOutput) = none :=
  ⟨by decide, by decide⟩

/-- C1 (amended): for every routing-command output text, the code uses the
first line that BOTH matches the platform pattern AND meets the token
minimum (a matching line with too few tokens is skipped and a later
matching line may supply the result): on Windows the last token of the
first line containing `'Default Gateway'` with at least 4 tokens, on POSIX
the 3rd token of the first line beginning `'default via'` with at least 3
tokens, and `none` when no such line (or the command failed); the two
concrete examples of the claim hold as stated. -/
theorem claim_C1_amended :
    (∀ w : Bool, get_default_gateway w none = none) ∧
    (∀ output : String, get_default_gateway true (some output) =
      ((pySplitlines output).find? (fun l => pyContains l "Default Gateway" &&
        decide (4 ≤ (pySplitWs l).length))).bind (fun l => (pySplitWs l).getLast?)) ∧
    (∀ output : String, get_default_gateway false (some output) =
      ((pySplitlines output).find? (fun l => pyStartsWith l "default via" &&
        decide (3 ≤ (pySplitWs l).length))).bind (fun l => (pySplitWs l)[2]?)) ∧
    get_default_gateway true (some "   Default Gateway . . . . . . . : 192.168.1.1") =
      some "192.168.1.1" ∧
    get_default_gateway false (some "default via 10.0.0.1 dev eth0") = some "10.0.0.1" := by
  refine ⟨fun w => by cases w <;> rfl, fun output => ?_, fun output => ?_, by decide, by decide⟩
  · simpa [get_default_gateway] using gwScanWindows_eq_find (pySplitlines output)
  · simpa [get_default_gateway] using gwScanPosix_eq_find (pySplitlines output)

/-- C2 counterexample: when the ping subprocess exits non-zero with captured
output text (here a nonempty packet-loss transcript), the code returns the
constant `"Ping failed"`, which neither equals nor contains the captured
text — the raw captured text IS discarded, not preserved as the claim
states. -/
def capturedFailureText : String :=
  "PING 10.0.0.99 (10.0.0.99): 56 data bytes\n1 packets transmitted, 0 received, 100% packet loss"

/-- C2 counterexample (see `capturedFailureText`). -/
theorem claim_C2_counterexample :
    ping (SubprocResult.calledProcessError capturedFailureText) = Except.ok "Ping failed" ∧
    (capturedFailureText == "") = false ∧
    ("Ping failed" == capturedFailureText) = false ∧
    pyContains "Ping failed" capturedFailureText = false :=
  ⟨rfl, by decide, by decide, by decide⟩

/-- C2 (amended): on zero exit `ping` returns the captured text; on non-zero
exit (`subprocess.CalledProcessError`) it returns the literal string
`"Ping failed"`, discarding the captured text; when the subprocess cannot
be launched at all the exception is not caught and escapes `ping`. -/
theorem claim_C2_amended :
    (∀ output : String, ping (SubprocResult.ok output) = Except.ok output) ∧
    (∀ output : String, ping (SubprocResult.calledProcessError output) = Except.ok "Ping failed") ∧
    ping SubprocResult.launchError = Except.error () :=
  ⟨fun _ => rfl, fun _ => rfl, rfl⟩

/-- C3 counterexample: a completed `check_connection` invocation (gateway
undiscoverable) whose probe list is EMPTY — no Probe Executor invocation
against any internet anchor address (nor any other host) occurred, so the
claim that every invocation probes a fixed internet anchor is false of
`check_connection`. -/
theorem claim_C3_counterexample :
    check_connection envNoGateway =
      Except.ok (mkReport ("N/A", "N/A") "N/A" "Gateway not found" "142.250.64.78" []) ∧
    (check_connection envNoGateway).map Report.pinged = Except.ok [] :=
  ⟨rfl, rfl⟩

/-- C3 (amended): every completed `check_connection` invocation runs
interface/IP discovery, gateway discovery, the logon-server lookup and the
DNS query of `"google.com"` unconditionally — no step is skipped because a
prior step returned an error or sentinel — but the only probe it ever runs
is the gateway probe, performed exactly when gateway discovery returned a
truthy value; there is no internet-anchor probe in `check_connection`. -/
theorem claim_C3_amended : ∀ (env : Env) (r : Report), check_connection env = Except.ok r →
    r.ip_result = "IP: " ++ (get_ip_and_interface env.ifaces).1 ∧
    r.interface_result = "Interface: " ++ (get_ip_and_interface env.ifaces).2 ∧
    r.logon_server_result = "Logon Server: " ++ get_logon_server env.windows env.logonCmd ∧
    r.dns_result = "DNS google.com: " ++ dns_query (env.dns "google.com") ∧
    r.pinged = (match get_default_gateway env.windows env.routeCmd with
                | some g => if g = "" then [] else [g]
                | none => []) := by
  intro env r hok
  simp only [check_connection] at hok
  cases hg : get_default_gateway env.windows env.routeCmd with
  | some g =>
    simp only [hg] at hok
    by_cases hge : g = ""
    · rw [if_pos hge] at hok
      injection hok with hok
      subst hok
      simp [mkReport, hg, hge]
    · rw [if_neg hge] at hok
      cases hp : ping (env.pings g) with
      | ok s =>
        simp only [hp] at hok
        injection hok with hok
        subst hok
        simp [mkReport, hg, hge]
      | error e => simp [hp] at hok
  | none =>
    simp only [hg] at hok
    injection hok with hok
    subst hok
    simp [mkReport, hg]

/-- C3 (amended) witness at `envWithGateway` / `repWithGateway`. -/
theorem claim_C3_amended_witness :
    repWithGateway.pinged =
      (match get_default_gateway envWithGateway.windows envWithGateway.routeCmd with
       | some g => if g = "" then [] else [g]
       | none => []) :=
  (claim_C3_amended envWithGateway repWithGateway rfl).2.2.2.2

/-- C4: in every completed invocation, if gateway discovery returned a value
then exactly that host was probed and the recorded gateway field carries the
probe outcome; if it returned absent, no host was probed and the field is
the distinct sentinel `"Gateway not found"` (the source's literal for
"gateway not found", distinct from any attempted-probe text). -/
theorem claim_C4 : ∀ (env : Env) (r : Report), check_connection env = Except.ok r →
    (∀ g : String, get_default_gateway env.windows env.routeCmd = some g →
      r.pinged = [g] ∧ ∃ s, ping (env.pings g) = Except.ok s ∧
        r.gw_result = "Gateway (" ++ g ++ "):\n" ++ s) ∧
    (get_default_gateway env.windows env.routeCmd = none →
      r.pinged = [] ∧ r.gw_result = "Gateway not found") := by
  intro env r hok
  simp only [check_connection] at hok
  constructor
  · intro g hg
    simp only [hg] at hok
    rw [if_neg (get_default_gateway_ne_empty _ _ _ hg)] at hok
    cases hp : ping (env.pings g) with
    | ok s =>
      simp only [hp] at hok
      injection hok with hok
      subst hok
      exact ⟨rfl, s, rfl, rfl⟩
    | error e => simp [hp] at hok
  · intro hg
    simp only [hg] at hok
    injection hok with hok
    subst hok
    exact ⟨rfl, rfl⟩

/-- C4 witness: the gateway-found branch at `envWithGateway` and the
gateway-absent branch at `envAllFailing`. -/
theorem claim_C4_witness :
    (repWithGateway.pinged = ["10.0.0.1"] ∧
      ∃ s, ping (envWithGateway.pings "10.0.0.1") = Except.ok s ∧
        repWithGateway.gw_result = "Gateway (" ++ "10.0.0.1" ++ "):\n" ++ s) ∧
    (repAllFailing.pinged = [] ∧ repAllFailing.gw_result = "Gateway not found") :=
  ⟨(claim_C4 envWithGateway repWithGateway rfl).1 "10.0.0.1" rfl,
   (claim_C4 envAllFailing repAllFailing rfl).2 rfl⟩

/-- C5: `get_logon_server` returns `"N/A"` on every non-Windows platform;
on Windows it returns the trimmed shell output on success and `"N/A"` on
command failure.  The `"Not available"`-when-unset behaviour of the report
field lives in the `NetworkChecker` class (`network_operations.py`, not
under `src/`) and is verified against `networkChecker_logon_server`,
modelled from the spec. -/
theorem claim_C5 :
    (∀ cmd : Option String, get_logon_server false cmd = "N/A") ∧
    (∀ output : String, get_logon_server true (some output) = pyStrip output) ∧
    get_logon_server true none = "N/A" ∧
    (∀ (unset : Bool) (cmd : Option String), networkChecker_logon_server false unset cmd = "N/A") ∧
    (∀ output : String, networkChecker_logon_server true true (some output) = "Not available") ∧
    (∀ output : String, networkChecker_logon_server true false (some output) = pyStrip output) ∧
    (∀ unset : Bool, networkChecker_logon_server true unset none = "N/A") :=
  ⟨fun _ => rfl, fun _ => rfl, rfl, fun _ _ => rfl, fun _ => rfl, fun _ => rfl, fun _ => rfl⟩

/-- C6: `dns_query` makes one resolver call; on success it returns the
resolved address, and on any resolution error (modelled by `none`, since
`socket.gaierror` is a subclass of the caught `socket.error`) it returns
exactly `"DNS resolution failed"` — it is a total function, no exception
escapes it. -/
theorem claim_C6 :
    (∀ addr : String, dns_query (some addr) = addr) ∧
    dns_query none = "DNS resolution failed" :=
  ⟨fun _ => rfl, rfl⟩

/-- C7 counterexample: a true subprocess LAUNCH exception (the ping binary
missing or not executable raises `FileNotFoundError` / `PermissionError`,
modelled by `SubprocResult.launchError`) is not classified as an in-band
ExecutionFailed outcome: `ping` catches only `CalledProcessError`, so the
exception escapes (`Except.error ()`) and no outcome string at all is
produced. -/
theorem claim_C7_counterexample :
    ping SubprocResult.launchError = Except.error () ∧
    (ping SubprocResult.launchError).toOption = none :=
  ⟨rfl, rfl⟩

/-- C7 (amended): text containing `"Reply from 192.168.1.1: bytes=32"` is
summarized to that reply line and classified `"success"` by the GUI status
rule (Success); `"Request timed out."` is summarized to that line
(Timeout); a subprocess NON-ZERO-EXIT exception (`CalledProcessError`)
classifies as ExecutionFailed via the in-band marker `"Ping failed"`
(whereas a true launch exception escapes uncaught); and any probe text
containing `"Ping failed"` or `"timeout"` case-insensitively is surfaced
verbatim by the summarizer rather than further parsed. -/
theorem claim_C7_amended :
    _parse_ping_output true "Reply from 192.168.1.1: bytes=32" =
      "Reply from 192.168.1.1: bytes=32" ∧
    gw_status (some "192.168.1.1") "Reply from 192.168.1.1: bytes=32" = "success" ∧
    _parse_ping_output true "Request timed out." = "Request timed out." ∧
    (∀ output : String,
      ping (SubprocResult.calledProcessError output) = Except.ok "Ping failed") ∧
    (∀ (isW : Bool) (t : String),
      (pyContains t "Ping failed" || pyContains (pyLower t) "timeout") = true →
      _parse_ping_output isW t = t) := by
  refine ⟨by decide, by decide, by decide, fun _ => rfl, fun isW t h => ?_⟩
  simp only [_parse_ping_output]
  rw [if_pos h]

/-- C7 (amended) witness: the literal `"Ping failed"` text is surfaced
verbatim. -/
theorem claim_C7_amended_witness : _parse_ping_output true "Ping failed" = "Ping failed" :=
  claim_C7_amended.2.2.2.2 true "Ping failed" (by decide)

/-- C8: `get_ip_and_interface` returns the first (address, interface) pair
in OS-reported enumeration order whose family is `AF_INET` and whose
address is outside the `"127."` loopback prefix (for dotted-quad address
strings, exactly the 127.0.0.0/8 range); when no pair qualifies, or the
enumeration itself raised, it returns the sentinel pair `("N/A", "N/A")`
instead of failing. -/
theorem claim_C8 :
    get_ip_and_interface none = ("N/A", "N/A") ∧
    ∀ t : List (String × List IfAddr),
      get_ip_and_interface (some t) =
        (((addrPairsInOrder t).find? qualifiesIPv4).map
          (fun p => (p.2.address, p.1))).getD ("N/A", "N/A") := by
  refine ⟨rfl, fun t => ?_⟩
  show (match scanIfaceTable t with
        | some p => p
        | none => ("N/A", "N/A")) = _
  rw [scanIfaceTable_eq_find]
  cases (addrPairsInOrder t).find? qualifiesIPv4 with
  | some p => rfl
  | none => rfl

/-- C9: on Windows, whenever the first line containing `'Default Gateway'`
has at least 4 whitespace tokens and its final token is the bare separator
`":"` (an ipconfig adapter with no gateway value after the colon), the code
returns `some ":"` as the gateway address instead of reporting it absent. -/
theorem claim_C9 : ∀ (output L : String),
    (pySplitlines output).find? (fun l => pyContains l "Default Gateway") = some L →
    4 ≤ (pySplitWs L).length →
    (pySplitWs L).getLast? = some ":" →
    get_default_gateway true (some output) = some ":" := by
  intro output L hfind h4 hlast
  rw [show get_default_gateway true (some output) = gwScanWindows (pySplitlines output) from rfl]
  rw [gwScanWindows_first (pySplitlines output) L hfind h4, hlast]

/-- C9 witness: the claim's example line, a gateway-less adapter entry. -/
theorem claim_C9_witness :
    get_default_gateway true (some "   Default Gateway . . . . . . . :") = some ":" :=
  claim_C9 "   Default Gateway . . . . . . . :" "   Default Gateway . . . . . . . :"
    (by decide) (by decide) (by decide)

/-- C10: for every probe output containing neither `"Ping failed"` nor
(case-insensitively) `"timeout"`, and in which no line carries a recognized
marker (`'Reply from'`, `'Request timed out'`, `'Packets:'` on Windows;
`'bytes from'` case-insensitively on POSIX), `_parse_ping_output` returns
the literal `"Success"`. -/
theorem claim_C10 : ∀ (isW : Bool) (t : String),
    pyContains t "Ping failed" = false →
    pyContains (pyLower t) "timeout" = false →
    (isW = true → ∀ l ∈ pySplitChar '\n' t,
      pyContains l "Reply from" = false ∧ pyContains l "Request timed out" = false ∧
      pyContains l "Packets:" = false) →
    (isW = false → ∀ l ∈ pySplitChar '\n' t,
      pyContains (pyLower l) "bytes from" = false) →
    _parse_ping_output isW t = "Success" := by
  intro isW t h1 h2 hw hp
  simp only [_parse_ping_output]
  rw [if_neg (by simp [h1, h2])]
  cases isW with
  | true =>
    rw [pingOutputScanWindows_none _ (hw rfl)]
    rfl
  | false =>
    rw [pingOutputScanPosix_none _ (hp rfl)]
    rfl

/-- C10 witness: empty probe output is summarized as `"Success"` on both
platforms. -/
theorem claim_C10_witness :
    _parse_ping_output true "" = "Success" ∧ _parse_ping_output false "" = "Success" :=
  ⟨claim_C10 true "" (by decide) (by decide) (fun _ => by decide) (fun h => nomatch h),
   claim_C10 false "" (by decide) (by decide) (fun h => nomatch h) (fun _ => by decide)⟩
